import Mathlib

/-!
Shallow embedding of the Spotify ETL pipeline (`src/spotify.py`):
an Airflow DAG with three stages — `extract_spotify_data`, `transform`,
`load` — plus the blob-storage helper `upload_object_to_bucket`.

External effects (HTTP request, blob download/upload, BigQuery calls)
are modelled as parameters of an environment record: each effectful call
is a value of `Call α`, either a result or a raised exception. Control
flow (try/except placement, `exit()`, boolean returns) is translated
directly from the source. The warehouse table is a list of rows; the
`SELECT DISTINCT` rewrite is `List.dedup`. Strings manipulated by the
path logic are lists of characters, with Python's `str.split` and
`str.rsplit('.', 1)[0]` given faithful recursive definitions.
-/

/-- One artist object inside `track.album.artists`. -/
structure Artist where
  name : String
deriving DecidableEq, Repr

/-- The `album` object of a track: `name` and the `artists` list. -/
structure Album where
  name : String
  artists : List Artist
deriving DecidableEq, Repr

/-- The `track` object of a recently-played item. -/
structure Track where
  name : String
  album : Album
  duration_ms : Int
  popularity : Int
deriving DecidableEq, Repr

/-- One entry of the raw document's `items` list. -/
structure Entry where
  track : Track
  played_at : String
deriving DecidableEq, Repr

/-- The raw play-history document: `data["items"]`. -/
structure RawDoc where
  items : List Entry
deriving DecidableEq, Repr

/-- One tabular record: the six scalar fields appended to the six
parallel lists in `transform` (src/spotify.py lines 151-157) and zipped
into the dataframe columns (line 170). -/
structure Row where
  song_name : String
  album_name : String
  artist_name : String
  duration_ms : Int
  popularity : Int
  played_at : String
deriving DecidableEq, Repr

/-- Projection of one raw entry into one row, as done by the loop body
in `transform` (src/spotify.py lines 152-157). Indexing
`song["track"]["album"]["artists"][0]` raises `IndexError` when the
artists list is empty; that is the `none` case. -/
def projectEntry (e : Entry) : Option Row :=
  match e.track.album.artists with
  | [] => none
  | a :: _ =>
      some { song_name := e.track.name
             album_name := e.track.album.name
             artist_name := a.name
             duration_ms := e.track.duration_ms
             popularity := e.track.popularity
             played_at := e.played_at }

/-- The full loop over `data["items"]` (src/spotify.py lines 151-157):
entries are projected in input order; the first entry whose artists list
is empty aborts the whole run with an exception (`none`). -/
def transformItems : List Entry → Option (List Row)
  | [] => some []
  | e :: es =>
      match projectEntry e, transformItems es with
      | some r, some rs => some (r :: rs)
      | _, _ => none

/-- The dataframe column names (src/spotify.py lines 160-167, 170). -/
def csvHeader : List String :=
  ["song_name", "album_name", "artist_name", "duration_ms", "popularity", "played_at"]

/-- One CSV data line for a row (the `to_csv` serialization of one
dataframe row, src/spotify.py line 179). -/
def rowToCsv (r : Row) : List String :=
  [r.song_name, r.album_name, r.artist_name,
   toString r.duration_ms, toString r.popularity, r.played_at]

/-- The serialized CSV (src/spotify.py line 179, `index=False`): a
header line followed by one line per dataframe row. -/
def toCsv (rows : List Row) : List (List String) :=
  csvHeader :: rows.map rowToCsv

/-- The `CREATE OR REPLACE TABLE ... AS (SELECT DISTINCT * FROM ...)`
rewrite (src/spotify.py lines 258-261): the table becomes the distinct
projection of its own rows. -/
def distinctRewrite (t : List Row) : List Row :=
  t.dedup

/-- The effect of the load job followed by the dedup rewrite on the
table state (src/spotify.py lines 251-261): the CSV rows are appended
by `load_table_from_uri`, then `distinctRewrite` runs. -/
def loadTable (t file : List Row) : List Row :=
  distinctRewrite (t ++ file)

/-- The printed "new records" delta (src/spotify.py lines 239-244 and
262-269): row count after load + dedup minus row count before load. -/
def newRecordsCount (t file : List Row) : Int :=
  ((loadTable t file).length : Int) - (t.length : Int)

/-- An external effectful call: it either returns a value or raises an
exception carrying a message. -/
inductive Call (α : Type) where
  | ok (val : α)
  | raises (msg : String)
deriving DecidableEq, Repr

/-- How a pipeline stage ends: `exit()` called, an exception escaping
uncaught, or a normal return value. -/
inductive StepOutcome (α : Type) where
  | exited
  | uncaught (msg : String)
  | returns (val : α)
deriving DecidableEq, Repr

/-- Python's `str.split(sep)` for a one-character separator, over
character lists: `"a/b".split('/') == ["a", "b"]`, `"".split('/') == [""]`. -/
def splitOnChar (c : Char) : List Char → List (List Char)
  | [] => [[]]
  | x :: xs =>
      if x = c then [] :: splitOnChar c xs
      else
        match splitOnChar c xs with
        | [] => [[x]]
        | h :: t => (x :: h) :: t

/-- Python's `s.rsplit('.', 1)[0]` over character lists: everything
before the last dot, or the whole string when there is no dot. -/
def rsplitDotHead : List Char → List Char
  | [] => []
  | x :: xs =>
      if '.' ∈ xs then x :: rsplitDotHead xs
      else if x = '.' then []
      else x :: rsplitDotHead xs

/-- The names `transform` derives from the incoming locator
(src/spotify.py lines 118-121, 177, 182, 189). -/
structure TransformPaths where
  bucket_name : List Char
  local_basename : List Char
  file_name : List Char
  object_key : List Char
  full_object_key : List Char
deriving DecidableEq, Repr

/-- Path derivation in `transform` (src/spotify.py lines 118-121 and
177-189): split the locator on `/`; the bucket is the first part and
the local file name the last part (used unchanged as the download
basename, line 121); the CSV name replaces the extension after the last
dot with `.csv` (line 177); the upload key prefixes `transformed/`
(line 182); the returned locator is `bucket/key` (line 189). -/
def transformPaths (json_object_key : List Char) : TransformPaths :=
  let parts := splitOnChar '/' json_object_key
  let bucket_name := parts.headD []
  let local_basename := parts.getLastD []
  let file_name := rsplitDotHead local_basename ++ ".csv".toList
  let object_key := "transformed/".toList ++ file_name
  { bucket_name := bucket_name
    local_basename := local_basename
    file_name := file_name
    object_key := object_key
    full_object_key := bucket_name ++ "/".toList ++ object_key }

/-- The effectful environment of one `transform` run: the blob download
(all of lines 114-130, inside the try), and `json.load` of the
downloaded file (lines 136-137, outside the try). The boolean records
whether the final upload succeeds. -/
structure TransformEnv where
  download : Call Unit
  parse : Call RawDoc
  uploadOk : Bool
deriving Repr

/-- Control flow of `transform` (src/spotify.py lines 107-190): an
exception inside the download try-block is caught and `exit()` is
called (lines 131-133); `json.load`, run outside any try, propagates
its exceptions; an empty artists list inside the projection loop raises
`IndexError`, also uncaught; otherwise the function returns the new
locator, ignoring the result of `upload_object_to_bucket`. -/
def transformStep (env : TransformEnv) (json_object_key : List Char) :
    StepOutcome (List Char) :=
  match env.download with
  | .raises _ => .exited
  | .ok _ =>
      match env.parse with
      | .raises m => .uncaught m
      | .ok doc =>
          match transformItems doc.items with
          | none => .uncaught "IndexError"
          | some _ => .returns (transformPaths json_object_key).full_object_key

/-- The effectful environment of one `upload_object_to_bucket` call:
`storage.Client()` plus `get_bucket` (which may raise, or return a
bucket / `None`), and `blob.upload_from_filename` (which may raise). -/
structure UploadEnv where
  getBucket : Call (Option Unit)
  uploadCall : Call Unit
deriving Repr

/-- The try-block body of `upload_object_to_bucket` (src/spotify.py
lines 44-53 and 61): raise, return `False` on a `None` bucket, or
return `True` after a successful upload. -/
def uploadBody (env : UploadEnv) : StepOutcome Bool :=
  match env.getBucket with
  | .raises m => .uncaught m
  | .ok none => .returns false
  | .ok (some _) =>
      match env.uploadCall with
      | .raises m => .uncaught m
      | .ok _ => .returns true

/-- `upload_object_to_bucket` (src/spotify.py lines 32-61): the
`except Exception` handler turns any exception from the body into a
printed message and a `False` return, so the caller always gets a
boolean. -/
def upload_object_to_bucket (env : UploadEnv) : Bool :=
  match uploadBody env with
  | .returns b => b
  | .uncaught _ => false
  | .exited => false

/-- The effectful environment of one `extract_spotify_data` run: the
`requests.get` + `.json()` call (not inside any try), and the
environment of the upload it performs. -/
structure ExtractEnv where
  request : Call RawDoc
  uploadEnv : UploadEnv
deriving Repr

/-- The locator `extract_spotify_data` returns (src/spotify.py lines
100-105): the bucket name, a slash, and the timestamped object key
`raw/<date>_spotify_data.json`. -/
def extractLocator (bucket_name date : List Char) : List Char :=
  bucket_name ++ "/raw/".toList ++ date ++ "_spotify_data.json".toList

/-- Control flow of `extract_spotify_data` (src/spotify.py lines
63-105): a failing API request propagates uncaught; otherwise the file
is uploaded via `upload_object_to_bucket` — whose boolean result is
discarded (line 101) — and the locator is returned unconditionally. -/
def extract_spotify_data (env : ExtractEnv) (bucket_name date : List Char) :
    StepOutcome (List Char) :=
  match env.request with
  | .raises m => .uncaught m
  | .ok _ =>
      match upload_object_to_bucket env.uploadEnv with
      | true => .returns (extractLocator bucket_name date)
      | false => .returns (extractLocator bucket_name date)

/-- Result of `client.get_dataset(dataset_id)` (src/spotify.py line
203): the dataset exists, a `NotFound` is raised (the only caught
exception class, line 205), or some other exception is raised. -/
inductive DSCheck where
  | found
  | notFound
  | raisesOther (msg : String)
deriving DecidableEq, Repr

/-- The first warehouse call inside the main try-block of `load`
(src/spotify.py lines 214-269) to raise, if any: `get_table`, the first
row count, the load job, the dedup rewrite, or the second row count. -/
inductive MainFail where
  | noFail
  | atGetTable
  | atCount1
  | atLoad
  | atDedup
  | atCount2
deriving DecidableEq, Repr

/-- The effectful environment of one `load` run. -/
structure LoadEnv where
  dsCheck : DSCheck
  createOk : Bool
  mainFail : MainFail
deriving DecidableEq, Repr

/-- The main try-block of `load` (src/spotify.py lines 214-274),
parameterized by the table state `t` and the CSV rows `file`: any
exception is caught and reported as `False`; an exception after the
load job but before the dedup rewrite leaves the appended rows (with
any duplicates) in place; success reaches the dedup rewrite and returns
`True`. -/
def loadMain (env : LoadEnv) (file t : List Row) : StepOutcome Bool × List Row :=
  match env.mainFail with
  | .atGetTable => (.returns false, t)
  | .atCount1 => (.returns false, t)
  | .atLoad => (.returns false, t)
  | .atDedup => (.returns false, t ++ file)
  | .atCount2 => (.returns false, distinctRewrite (t ++ file))
  | .noFail => (.returns true, distinctRewrite (t ++ file))

/-- Control flow of `load` (src/spotify.py lines 192-274): the dataset
existence check catches only `NotFound` (creating the dataset then, and
returning `False` if the creation raises, lines 202-212); any other
exception from `get_dataset` propagates uncaught; then the main
try-block runs over the table state. -/
def loadStep (env : LoadEnv) (file t : List Row) : StepOutcome Bool × List Row :=
  match env.dsCheck with
  | .raisesOther m => (.uncaught m, t)
  | .notFound =>
      if env.createOk then loadMain env file t
      else (.returns false, t)
  | .found => loadMain env file t

/-- The raw entry of the spec's end-to-end scenario: track "A", album
"B", artist "C", 1000 ms, popularity 50, played at
2024-01-01T00:00:00Z. -/
def sampleEntry : Entry :=
  { track := { name := "A"
               album := { name := "B", artists := [{ name := "C" }] }
               duration_ms := 1000
               popularity := 50 }
    played_at := "2024-01-01T00:00:00Z" }

/-- The tabular row the end-to-end scenario expects for `sampleEntry`. -/
def sampleRow : Row :=
  { song_name := "A"
    album_name := "B"
    artist_name := "C"
    duration_ms := 1000
    popularity := 50
    played_at := "2024-01-01T00:00:00Z" }

/-- A raw entry whose album has no artists: `artists[0]` raises. -/
def emptyArtistsEntry : Entry :=
  { track := { name := "A"
               album := { name := "B", artists := [] }
               duration_ms := 1000
               popularity := 50 }
    played_at := "2024-01-01T00:00:00Z" }

/-- Unfolding of a successful projection into its six field equations. -/
theorem projectEntry_eq_some {e : Entry} {r : Row} (h : projectEntry e = some r) :
    ∃ a rest, e.track.album.artists = a :: rest ∧
      r.song_name = e.track.name ∧
      r.album_name = e.track.album.name ∧
      r.artist_name = a.name ∧
      r.duration_ms = e.track.duration_ms ∧
      r.popularity = e.track.popularity ∧
      r.played_at = e.played_at := by
  unfold projectEntry at h
  cases he : e.track.album.artists with
  | nil => rw [he] at h; exact absurd h (by simp)
  | cons a rest =>
      rw [he] at h
      refine ⟨a, rest, rfl, ?_⟩
      cases h.symm
      exact ⟨rfl, rfl, rfl, rfl, rfl, rfl⟩

/-- A successful transform projects every entry, in order. -/
theorem transformItems_spec {items : List Entry} {rows : List Row}
    (h : transformItems items = some rows) :
    rows.length = items.length ∧
      ∀ i (hi : i < items.length) (hr : i < rows.length),
        projectEntry (items.get ⟨i, hi⟩) = some (rows.get ⟨i, hr⟩) := by
  induction items generalizing rows with
  | nil =>
      simp only [transformItems] at h
      cases h
      exact ⟨rfl, fun i hi => absurd hi (by simp)⟩
  | cons e es ih =>
      simp only [transformItems] at h
      cases hpe : projectEntry e with
      | none => rw [hpe] at h; exact absurd h (by simp)
      | some r =>
          rw [hpe] at h
          cases hts : transformItems es with
          | none => rw [hts] at h; exact absurd h (by simp)
          | some rs =>
              rw [hts] at h
              cases h.symm
              obtain ⟨hlen, hget⟩ := ih hts
              refine ⟨by simp [hlen], ?_⟩
              intro i hi hr
              cases i with
              | zero => simpa using hpe
              | succ j =>
                  simp only [List.get_cons_succ]
                  exact hget j (by simpa using hi) (by simpa using hr)

/-- Splitting consumes a separator-free prefix as one part. -/
theorem splitOnChar_append_sep (c : Char) (b rest : List Char) (hb : c ∉ b) :
    splitOnChar c (b ++ c :: rest) = b :: splitOnChar c rest := by
  induction b with
  | nil => simp [splitOnChar]
  | cons x xs ih =>
      simp only [List.mem_cons, not_or] at hb
      have hx : ¬ x = c := fun hh => hb.1 hh.symm
      simp only [List.cons_append, splitOnChar, List.append_eq, if_neg hx, ih hb.2]

/-- Splitting a separator-free string yields that one part. -/
theorem splitOnChar_of_not_mem (c : Char) (s : List Char) (h : c ∉ s) :
    splitOnChar c s = [s] := by
  induction s with
  | nil => rfl
  | cons x xs ih =>
      simp only [List.mem_cons, not_or] at h
      have hx : ¬ x = c := fun hh => h.1 hh.symm
      simp [splitOnChar, if_neg hx, ih h.2]

/-- `rsplit('.', 1)[0]` strips exactly the last dot-extension. -/
theorem rsplitDotHead_append_ext (name suffix : List Char) (h : '.' ∉ suffix) :
    rsplitDotHead (name ++ '.' :: suffix) = name := by
  induction name with
  | nil => simp [rsplitDotHead, h]
  | cons x xs ih =>
      have hmem : '.' ∈ xs ++ '.' :: suffix := by simp
      simp [rsplitDotHead, hmem, ih]

/-- A document with an empty-artists entry makes the projection loop raise. -/
theorem transformItems_eq_none {items : List Entry}
    (h : ∃ e ∈ items, e.track.album.artists = []) :
    transformItems items = none := by
  induction items with
  | nil => simp at h
  | cons e es ih =>
      rcases h with ⟨f, hf, hart⟩
      rcases List.mem_cons.1 hf with rfl | hmem
      · simp [transformItems, projectEntry, hart]
      · have hes := ih ⟨f, hmem, hart⟩
        cases hpe : projectEntry e <;> simp [transformItems, hpe, hes]

/-- C1: for a raw document whose items list has N entries (all
projectable, i.e. the transform does not raise), the tabular dataset
has exactly N rows, the CSV has six columns, and row i's fields equal
entry i's track name, album name, first artist name, duration,
popularity and played-at timestamp, in input order. -/
theorem spotify_C1 (items : List Entry) (rows : List Row)
    (h : transformItems items = some rows) :
    rows.length = items.length ∧
    (toCsv rows).length = items.length + 1 ∧
    (∀ line ∈ toCsv rows, line.length = 6) ∧
    ∀ i (hi : i < items.length) (hr : i < rows.length),
      ∃ a rest,
        (items.get ⟨i, hi⟩).track.album.artists = a :: rest ∧
        (rows.get ⟨i, hr⟩).song_name = (items.get ⟨i, hi⟩).track.name ∧
        (rows.get ⟨i, hr⟩).album_name = (items.get ⟨i, hi⟩).track.album.name ∧
        (rows.get ⟨i, hr⟩).artist_name = a.name ∧
        (rows.get ⟨i, hr⟩).duration_ms = (items.get ⟨i, hi⟩).track.duration_ms ∧
        (rows.get ⟨i, hr⟩).popularity = (items.get ⟨i, hi⟩).track.popularity ∧
        (rows.get ⟨i, hr⟩).played_at = (items.get ⟨i, hi⟩).played_at := by
  obtain ⟨hlen, hget⟩ := transformItems_spec h
  refine ⟨hlen, by simp [toCsv, hlen], ?_, ?_⟩
  · intro line hline
    rcases List.mem_cons.1 hline with rfl | hmem
    · rfl
    · obtain ⟨r, _, rfl⟩ := List.mem_map.1 hmem
      rfl
  · intro i hi hr
    obtain ⟨a, rest, hart, h1, h2, h3, h4, h5, h6⟩ :=
      projectEntry_eq_some (hget i hi hr)
    exact ⟨a, rest, hart, h1, h2, h3, h4, h5, h6⟩

/-- Witness for C1 at the spec's end-to-end scenario input. -/
theorem spotify_C1_witness :
    transformItems [sampleEntry] = some [sampleRow] ∧
    ([sampleRow] : List Row).length = [sampleEntry].length :=
  ⟨by decide, (spotify_C1 [sampleEntry] [sampleRow] (by decide)).1⟩

/-- C2: the deduplication rewrite is idempotent — applying it twice
yields the same table and row count as applying it once — and it is a
no-op on an already-distinct table. -/
theorem spotify_C2 (t : List Row) :
    distinctRewrite (distinctRewrite t) = distinctRewrite t ∧
    (distinctRewrite (distinctRewrite t)).length = (distinctRewrite t).length ∧
    (t.Nodup → distinctRewrite t = t) := by
  refine ⟨?_, ?_, fun h => ?_⟩
  · simp [distinctRewrite, List.dedup_idem]
  · simp [distinctRewrite, List.dedup_idem]
  · simp [distinctRewrite, List.dedup_eq_self.mpr h]

/-- Witness for C2: a duplicated table and an already-distinct table. -/
theorem spotify_C2_witness :
    distinctRewrite (distinctRewrite [sampleRow, sampleRow]) =
      distinctRewrite [sampleRow, sampleRow] ∧
    distinctRewrite [sampleRow] = [sampleRow] :=
  ⟨(spotify_C2 [sampleRow, sampleRow]).1, (spotify_C2 [sampleRow]).2.2 (by decide)⟩

/-- C3 counterexample: when the pre-existing table itself holds
duplicates of the row, loading that row again and deduplicating shrinks
the table, so the reported new-records delta is -1, not 0 — the claim
fails at table [r, r] and file [r]. -/
theorem spotify_C3_counterexample :
    sampleRow ∈ [sampleRow, sampleRow] ∧
    (loadTable [sampleRow, sampleRow] [sampleRow]).count sampleRow = 1 ∧
    newRecordsCount [sampleRow, sampleRow] [sampleRow] ≠ 0 := by decide

/-- C3 amended: for every duplicate-free table that already contains
the row, loading a file with that exact row and deduplicating leaves
exactly one copy of it, and the reported new-records delta is 0. -/
theorem spotify_C3_amended (t : List Row) (r : Row)
    (hnd : t.Nodup) (hr : r ∈ t) :
    (loadTable t [r]).count r = 1 ∧ newRecordsCount t [r] = 0 := by
  have hmem : r ∈ (t ++ [r]).dedup := List.mem_dedup.2 (by simp)
  have hcount : ((t ++ [r]).dedup).count r = 1 :=
    List.count_eq_one_of_mem (List.nodup_dedup _) hmem
  have hlen : (t ++ [r]).dedup.length = t.length := by
    have hfin : (t ++ [r]).toFinset = t.toFinset := by
      rw [List.toFinset_append]
      refine Finset.union_eq_left.mpr ?_
      simp [hr]
    calc (t ++ [r]).dedup.length
        = (t ++ [r]).toFinset.card := (List.card_toFinset _).symm
      _ = t.toFinset.card := by rw [hfin]
      _ = t.dedup.length := List.card_toFinset _
      _ = t.length := by rw [List.dedup_eq_self.mpr hnd]
  refine ⟨hcount, ?_⟩
  simp only [newRecordsCount, loadTable, distinctRewrite, hlen, sub_self]

/-- Witness for C3 amended at a one-row table. -/
theorem spotify_C3_witness :
    (loadTable [sampleRow] [sampleRow]).count sampleRow = 1 ∧
    newRecordsCount [sampleRow] [sampleRow] = 0 :=
  spotify_C3_amended [sampleRow] sampleRow (by decide) (by decide)

/-- C4: for a locator `<bucket>/raw/<name>.json` (bucket and name free
of slashes), the transformer keeps the basename `<name>.json` unchanged
as the local file name, uploads under remote key
`transformed/<name>.csv`, and returns `<bucket>/transformed/<name>.csv`. -/
theorem spotify_C4 (bucket name : List Char)
    (hb : '/' ∉ bucket) (hn : '/' ∉ name) :
    (transformPaths (bucket ++ "/raw/".toList ++ name ++ ".json".toList)).local_basename
        = name ++ ".json".toList ∧
    (transformPaths (bucket ++ "/raw/".toList ++ name ++ ".json".toList)).object_key
        = "transformed/".toList ++ name ++ ".csv".toList ∧
    (transformPaths (bucket ++ "/raw/".toList ++ name ++ ".json".toList)).full_object_key
        = bucket ++ "/transformed/".toList ++ name ++ ".csv".toList := by
  have hjson : ('/' : Char) ∉ name ++ ".json".toList := by
    intro hmem
    rcases List.mem_append.1 hmem with h | h
    · exact hn h
    · revert h; decide
  have e : bucket ++ "/raw/".toList ++ name ++ ".json".toList
      = bucket ++ '/' :: ("raw".toList ++ '/' :: (name ++ ".json".toList)) := by
    simp [List.append_assoc]
  have hsplit : splitOnChar '/' (bucket ++ "/raw/".toList ++ name ++ ".json".toList)
      = [bucket, "raw".toList, name ++ ".json".toList] := by
    rw [e, splitOnChar_append_sep '/' bucket _ hb,
        splitOnChar_append_sep '/' "raw".toList _ (by decide),
        splitOnChar_of_not_mem '/' _ hjson]
  have hbase : rsplitDotHead (name ++ ".json".toList) = name := by
    have : name ++ ".json".toList = name ++ '.' :: "json".toList := rfl
    rw [this, rsplitDotHead_append_ext name "json".toList (by decide)]
  have hpre : ("/".toList : List Char) ++ "transformed/".toList
      = "/transformed/".toList := rfl
  refine ⟨?_, ?_, ?_⟩
  · simp only [transformPaths]
    rw [hsplit]
    rfl
  · simp only [transformPaths]
    rw [hsplit]
    show "transformed/".toList ++ (rsplitDotHead (name ++ ".json".toList) ++ ".csv".toList)
        = "transformed/".toList ++ name ++ ".csv".toList
    rw [hbase, List.append_assoc]
  · simp only [transformPaths]
    rw [hsplit]
    show bucket ++ "/".toList ++
          ("transformed/".toList ++ (rsplitDotHead (name ++ ".json".toList) ++ ".csv".toList))
        = bucket ++ "/transformed/".toList ++ name ++ ".csv".toList
    rw [hbase, ← hpre]
    simp [List.append_assoc]

/-- Witness for C4 at the spec's example locator `bucket/raw/x.json`. -/
theorem spotify_C4_witness :
    (transformPaths ("bucket".toList ++ "/raw/".toList ++ "x".toList ++ ".json".toList)).local_basename
        = "x".toList ++ ".json".toList ∧
    (transformPaths ("bucket".toList ++ "/raw/".toList ++ "x".toList ++ ".json".toList)).object_key
        = "transformed/".toList ++ "x".toList ++ ".csv".toList ∧
    (transformPaths ("bucket".toList ++ "/raw/".toList ++ "x".toList ++ ".json".toList)).full_object_key
        = "bucket".toList ++ "/transformed/".toList ++ "x".toList ++ ".csv".toList :=
  spotify_C4 "bucket".toList "x".toList (by decide) (by decide)

/-- C5 counterexample: an exception raised by `json.load` (the parse),
which sits outside the try/except of `transform`, is not caught — the
run ends with an uncaught exception, not with the caught-and-exit path,
so the claim fails at this concrete environment. -/
theorem spotify_C5_counterexample :
    transformStep { download := Call.ok ()
                    parse := Call.raises "parse error"
                    uploadOk := true } "b/raw/x.json".toList
      = StepOutcome.uncaught "parse error" ∧
    transformStep { download := Call.ok ()
                    parse := Call.raises "parse error"
                    uploadOk := true } "b/raw/x.json".toList
      ≠ StepOutcome.exited := by
  exact ⟨rfl, by decide⟩

/-- C5 amended: every exception raised during the download of the raw
object is caught and terminates the process via `exit()`; an exception
raised while parsing the downloaded JSON propagates uncaught; and the
transform step has no boolean-return path for upload failures — its
outcome is the same whether the upload succeeds or fails. -/
theorem spotify_C5_amended (env : TransformEnv) (k : List Char) :
    (∀ m, env.download = Call.raises m →
        transformStep env k = StepOutcome.exited) ∧
    (∀ m, env.download = Call.ok () → env.parse = Call.raises m →
        transformStep env k = StepOutcome.uncaught m) ∧
    transformStep { env with uploadOk := true } k
      = transformStep { env with uploadOk := false } k := by
  refine ⟨?_, ?_, rfl⟩
  · intro m hm
    simp [transformStep, hm]
  · intro m hd hp
    simp [transformStep, hd, hp]

/-- Witness for C5 amended: a failing download exits the process. -/
theorem spotify_C5_witness :
    transformStep { download := Call.raises "download error"
                    parse := Call.ok { items := [] }
                    uploadOk := true } "b/raw/x.json".toList
      = StepOutcome.exited :=
  (spotify_C5_amended
    { download := Call.raises "download error"
      parse := Call.ok { items := [] }
      uploadOk := true } "b/raw/x.json".toList).1 "download error" rfl

/-- C6 counterexample: a non-NotFound exception raised by the dataset
existence check (`client.get_dataset`, whose handler catches only
`NotFound`) propagates out of `load` instead of being reported as a
boolean `False` — the claim fails at this concrete environment. -/
theorem spotify_C6_counterexample :
    (loadStep { dsCheck := DSCheck.raisesOther "connection reset"
                createOk := true
                mainFail := MainFail.noFail } [sampleRow] []).1
      = StepOutcome.uncaught "connection reset" ∧
    ∀ b, (loadStep { dsCheck := DSCheck.raisesOther "connection reset"
                     createOk := true
                     mainFail := MainFail.noFail } [sampleRow] []).1
      ≠ StepOutcome.returns b := by
  refine ⟨rfl, ?_⟩
  intro b h
  exact absurd h (by cases b <;> decide)

/-- C6 amended: every exception raised inside the main load block (the
table lookup, the row counts, the bulk load, the dedup rewrite) and
during dataset creation is caught and reported as a boolean return; but
a non-NotFound exception from the dataset existence check propagates
uncaught. No state is rolled back: a failure after the bulk load but
before the dedup rewrite leaves the appended rows — including
duplicates of rows already present — in the table. -/
theorem spotify_C6_amended (env : LoadEnv) (file t : List Row) :
    ((∀ m, env.dsCheck ≠ DSCheck.raisesOther m) →
        ∃ b, (loadStep env file t).1 = StepOutcome.returns b) ∧
    (env.dsCheck = DSCheck.found → env.mainFail = MainFail.atDedup →
        (loadStep env file t).2 = t ++ file) ∧
    (∀ r, env.dsCheck = DSCheck.found → env.mainFail = MainFail.atDedup →
        r ∈ t → r ∈ file → 2 ≤ (loadStep env file t).2.count r) := by
  refine ⟨?_, ?_, ?_⟩
  · intro h
    obtain ⟨ds, co, mf⟩ := env
    cases ds with
    | raisesOther m => exact absurd rfl (h m)
    | notFound =>
        cases co with
        | false => exact ⟨false, rfl⟩
        | true => cases mf <;> exact ⟨_, rfl⟩
    | found => cases mf <;> exact ⟨_, rfl⟩
  · intro h1 h2
    simp [loadStep, loadMain, h1, h2]
  · intro r h1 h2 hrt hrf
    have hc1 : 0 < t.count r := List.count_pos_iff.2 hrt
    have hc2 : 0 < file.count r := List.count_pos_iff.2 hrf
    have : (loadStep env file t).2 = t ++ file := by
      simp [loadStep, loadMain, h1, h2]
    rw [this, List.count_append]
    omega

/-- Witness for C6 amended: success path returns a boolean, and a
dedup-step failure leaves the duplicate row in the table. -/
theorem spotify_C6_witness :
    (∃ b, (loadStep { dsCheck := DSCheck.found
                      createOk := true
                      mainFail := MainFail.atDedup } [sampleRow] [sampleRow]).1
        = StepOutcome.returns b) ∧
    2 ≤ (loadStep { dsCheck := DSCheck.found
                    createOk := true
                    mainFail := MainFail.atDedup } [sampleRow] [sampleRow]).2.count sampleRow :=
  ⟨(spotify_C6_amended
      { dsCheck := DSCheck.found, createOk := true, mainFail := MainFail.atDedup }
      [sampleRow] [sampleRow]).1 (fun m h => nomatch h),
   (spotify_C6_amended
      { dsCheck := DSCheck.found, createOk := true, mainFail := MainFail.atDedup }
      [sampleRow] [sampleRow]).2.2 sampleRow rfl rfl (by decide) (by decide)⟩

/-- C7: `upload_object_to_bucket` never lets an exception escape — any
exception from its body (bucket lookup or upload) yields the boolean
`False`, a missing bucket yields `False`, and it returns `True` exactly
when both calls succeed on a real bucket; in `extract_spotify_data` a
failing API request is unhandled and fatal to the run. -/
theorem spotify_C7 (uenv : UploadEnv) (eenv : ExtractEnv)
    (bucket date : List Char) :
    (upload_object_to_bucket uenv = true ↔
        uenv.getBucket = Call.ok (some ()) ∧ uenv.uploadCall = Call.ok ()) ∧
    (∀ m, uploadBody uenv = StepOutcome.uncaught m →
        upload_object_to_bucket uenv = false) ∧
    (uenv.getBucket = Call.ok none → upload_object_to_bucket uenv = false) ∧
    (∀ m, eenv.request = Call.raises m →
        extract_spotify_data eenv bucket date = StepOutcome.uncaught m) := by
  obtain ⟨gb, uc⟩ := uenv
  refine ⟨?_, ?_, ?_, ?_⟩
  · cases gb with
    | raises m => simp [upload_object_to_bucket, uploadBody]
    | ok o =>
        cases o with
        | none => simp [upload_object_to_bucket, uploadBody]
        | some u =>
            cases u
            cases uc with
            | raises m => simp [upload_object_to_bucket, uploadBody]
            | ok v => cases v; simp [upload_object_to_bucket, uploadBody]
  · intro m hm
    simp [upload_object_to_bucket, hm]
  · intro hgb
    cases hgb
    simp [upload_object_to_bucket, uploadBody]
  · intro m hm
    simp [extract_spotify_data, hm]

/-- Witness for C7: a raising bucket lookup is reported as `False`, and
a failing API request escapes the extractor uncaught. -/
theorem spotify_C7_witness :
    upload_object_to_bucket { getBucket := Call.raises "storage down"
                              uploadCall := Call.ok () } = false ∧
    extract_spotify_data { request := Call.raises "401 unauthorized"
                           uploadEnv := { getBucket := Call.ok (some ())
                                          uploadCall := Call.ok () } }
        "poc_etl".toList "d".toList
      = StepOutcome.uncaught "401 unauthorized" :=
  ⟨(spotify_C7 { getBucket := Call.raises "storage down", uploadCall := Call.ok () }
      { request := Call.raises "401 unauthorized"
        uploadEnv := { getBucket := Call.ok (some ()), uploadCall := Call.ok () } }
      "poc_etl".toList "d".toList).2.1 "storage down" rfl,
   (spotify_C7 { getBucket := Call.raises "storage down", uploadCall := Call.ok () }
      { request := Call.raises "401 unauthorized"
        uploadEnv := { getBucket := Call.ok (some ()), uploadCall := Call.ok () } }
      "poc_etl".toList "d".toList).2.2.2 "401 unauthorized" rfl⟩

/-- C8: a raw document with an empty items list is not rejected — the
projection yields an empty dataset, the CSV is written with the header
line only (six column names, zero data rows), and the transform step
returns the new locator normally. -/
theorem spotify_C8 (doc : RawDoc) (h : doc.items = []) :
    transformItems doc.items = some [] ∧
    toCsv [] = [csvHeader] ∧
    csvHeader.length = 6 ∧
    ∀ env k, env.download = Call.ok () → env.parse = Call.ok doc →
      transformStep env k = StepOutcome.returns (transformPaths k).full_object_key := by
  refine ⟨by rw [h]; rfl, rfl, rfl, ?_⟩
  intro env k hd hp
  simp [transformStep, hd, hp, h, transformItems]

/-- Witness for C8 at the empty document. -/
theorem spotify_C8_witness :
    transformItems (RawDoc.mk []).items = some [] ∧
    transformStep { download := Call.ok ()
                    parse := Call.ok (RawDoc.mk [])
                    uploadOk := false } "poc_etl/raw/x.json".toList
      = StepOutcome.returns (transformPaths "poc_etl/raw/x.json".toList).full_object_key :=
  ⟨(spotify_C8 (RawDoc.mk []) rfl).1,
   (spotify_C8 (RawDoc.mk []) rfl).2.2.2
      { download := Call.ok (), parse := Call.ok (RawDoc.mk []), uploadOk := false }
      "poc_etl/raw/x.json".toList rfl rfl⟩

/-- C9: the extract step discards the boolean result of the upload and
returns the locator `<bucket>/raw/<date>_spotify_data.json`
unconditionally — for a given API response its return value is the same
for every upload environment, succeeding or failing. -/
theorem spotify_C9 (uenv uenv2 : UploadEnv) (doc : RawDoc)
    (bucket date : List Char) :
    extract_spotify_data { request := Call.ok doc, uploadEnv := uenv } bucket date
      = StepOutcome.returns (extractLocator bucket date) ∧
    extract_spotify_data { request := Call.ok doc, uploadEnv := uenv } bucket date
      = extract_spotify_data { request := Call.ok doc, uploadEnv := uenv2 } bucket date := by
  have hret : ∀ u : UploadEnv,
      extract_spotify_data { request := Call.ok doc, uploadEnv := u } bucket date
        = StepOutcome.returns (extractLocator bucket date) := by
    intro u
    simp only [extract_spotify_data]
    cases upload_object_to_bucket u <;> rfl
  exact ⟨hret uenv, (hret uenv).trans (hret uenv2).symm⟩

/-- C10: a document containing an entry whose album-artists list is
empty makes the unguarded `artists[0]` projection raise: the whole
transform run ends with an uncaught exception instead of producing a
row for that entry. -/
theorem spotify_C10 (env : TransformEnv) (doc : RawDoc) (k : List Char)
    (hd : env.download = Call.ok ()) (hp : env.parse = Call.ok doc)
    (h : ∃ e ∈ doc.items, e.track.album.artists = []) :
    transformItems doc.items = none ∧
    transformStep env k = StepOutcome.uncaught "IndexError" := by
  have hn := transformItems_eq_none h
  exact ⟨hn, by simp [transformStep, hd, hp, hn]⟩

/-- Witness for C10 at a one-entry document with no artists. -/
theorem spotify_C10_witness :
    transformItems [emptyArtistsEntry] = none ∧
    transformStep { download := Call.ok ()
                    parse := Call.ok (RawDoc.mk [emptyArtistsEntry])
                    uploadOk := true } "poc_etl/raw/x.json".toList
      = StepOutcome.uncaught "IndexError" :=
  spotify_C10
    { download := Call.ok (), parse := Call.ok (RawDoc.mk [emptyArtistsEntry]), uploadOk := true }
    (RawDoc.mk [emptyArtistsEntry]) "poc_etl/raw/x.json".toList rfl rfl
    ⟨emptyArtistsEntry, by simp, rfl⟩
